import Mathlib

/-!
Verification development for the `glass` desktop-overlay window subsystem.

Shallow embedding of:
* `src/window/windowLayoutManager.js` — the pure geometry calculator,
* `src/window/windowManager.js` — window-controller visibility handling,
  all-windows visibility toggling and the focus-restoration path,
* `src/core/crashRecoveryManager.js` — bounded crash recovery,
* `src/ui/ask/AskView.js` — the renderer side of the content-fit resize
  protocol.

Conventions:
* Electron window bounds are integer pixel values, so bounds are `Int`;
  intermediate JavaScript arithmetic that divides by 2 (centers, relative
  fractions) is carried out in `ℚ` and `Math.round` is modelled by
  `jsRound` (floor of `q + 1/2`, which matches JavaScript's
  round-half-up-toward-positive-infinity on all rationals).
* A JavaScript function that can throw (`getBounds` on a destroyed
  window, a property access on `null`) is embedded in `Except String`;
  `Except.error` marks a thrown exception, `pure none` marks a returned
  `null`.
* The Electron `screen` module (display lookup by nearest point, display
  list) is environment input; embeddings take the relevant display work
  area / display list as an explicit parameter.
-/

/-- Integer pixel rectangle, as returned by Electron's `getBounds()`. -/
structure Bounds where
  x : Int
  y : Int
  width : Int
  height : Int
deriving DecidableEq, Repr

/-- An {x, y} position object. -/
structure Pos where
  x : Int
  y : Int
deriving DecidableEq, Repr

/-- The window names used as keys of the window pool. -/
inductive WName where
  | header
  | ask
  | listen
  | settings
  | shortcutSettings
deriving DecidableEq, Repr

/-- State of one pooled `BrowserWindow` relevant to the embedded code:
bounds, destroyed flag, visibility, opacity, the screen-saver
always-on-top flag, mouse-event pass-through, and the settings window's
`__lockedByButton` expando. -/
structure Win where
  bounds : Bounds
  destroyed : Bool
  visible : Bool
  opacity : ℚ
  alwaysOnTop : Bool
  ignoreMouse : Bool
  lockedByButton : Bool
deriving DecidableEq, Repr

/-- The window pool: `windowPool.get(name)` returns the handle or
`undefined`. -/
def Pool := WName → Option Win

/-- JavaScript `Math.round`: round half toward positive infinity. -/
def jsRound (q : ℚ) : Int := ⌊q + 1/2⌋

/-- `Math.round` is the identity on integers. -/
theorem jsRound_intCast (n : Int) : jsRound (n : ℚ) = n := by
  unfold jsRound
  rw [show ((n : ℚ) + 1/2) = (1/2 : ℚ) + n by ring, Int.floor_add_int]
  norm_num

/-- `Math.round (q + n) = Math.round q + n` for an integer shift `n`. -/
theorem jsRound_add_int (q : ℚ) (n : Int) : jsRound (q + n) = jsRound q + n := by
  unfold jsRound
  rw [show (q + n + 1/2 : ℚ) = (q + 1/2) + n by ring, Int.floor_add_int]

/-- `Math.round (q - n) = Math.round q - n` for an integer shift `n`. -/
theorem jsRound_sub_int (q : ℚ) (n : Int) : jsRound (q - n) = jsRound q - n := by
  have h := jsRound_add_int (q - n) n
  simp at h
  omega

/-- `Math.round` moves a rational by at most a half pixel. -/
theorem abs_jsRound_sub_le (q : ℚ) : |(jsRound q : ℚ) - q| ≤ 1/2 := by
  unfold jsRound
  have h1 : (⌊q + 1/2⌋ : ℚ) ≤ q + 1/2 := Int.floor_le _
  have h2 : q + 1/2 - 1 < (⌊q + 1/2⌋ : ℚ) := Int.sub_one_lt_floor _
  rw [abs_le]
  constructor <;> linarith

/-- `getBounds()`: throws "Object has been destroyed" on a destroyed
window, otherwise returns the live bounds. -/
def jsGetBounds (w : Win) : Except String Bounds :=
  if w.destroyed then Except.error "Object has been destroyed" else pure w.bounds

/-- `isVisible()`: throws on a destroyed window. -/
def jsIsVisible (w : Win) : Except String Bool :=
  if w.destroyed then Except.error "Object has been destroyed" else pure w.visible

/-! ## windowLayoutManager.js -/

/-- One entry of `ORIGINAL_WINDOW_DIMENSIONS`: the optional fields of the
per-window nominal dimension record. -/
structure DimSpec where
  width : Option Int
  minHeight : Option Int
  maxHeight : Option Int
  height : Option Int
deriving DecidableEq, Repr

/-- `ORIGINAL_WINDOW_DIMENSIONS` from windowLayoutManager.js lines 4-9. -/
def ORIGINAL_WINDOW_DIMENSIONS : WName → Option DimSpec
  | .ask => some ⟨some 600, some 100, none, none⟩
  | .listen => some ⟨some 400, some 100, none, none⟩
  | .settings => some ⟨some 240, none, some 400, none⟩
  | .shortcutSettings => some ⟨some 353, none, none, some 720⟩
  | .header => none

/-- JavaScript truthiness of an optional number (`undefined` and `0` are
falsy). -/
def truthyI (o : Option Int) : Bool :=
  match o with
  | some v => v ≠ 0
  | none => false

/-- The numeric value behind an optional number (only read under a
`truthyI` guard). -/
def valI (o : Option Int) : Int := o.getD 0

/-- JavaScript `a?.f || b` for an optional number `a?.f`. -/
def jsOrI (a : Option Int) (b : Int) : Int :=
  match a with
  | some v => if v = 0 then b else v
  | none => b

/-- `constrainHeight` (windowLayoutManager.js lines 44-58). -/
def constrainHeight (currentHeight : Int) (originalConstraints : Option DimSpec) : Int :=
  match originalConstraints with
  | none => currentHeight
  | some c =>
    if truthyI c.minHeight ∧ currentHeight < valI c.minHeight then valI c.minHeight
    else if truthyI c.maxHeight ∧ currentHeight > valI c.maxHeight then valI c.maxHeight
    else if truthyI c.height then valI c.height
    else currentHeight

/-- The record produced by `getWindowDimensions`. -/
structure Dims where
  width : Int
  height : Int
  x : Int
  y : Int
deriving DecidableEq, Repr

/-- `getWindowDimensions` (windowLayoutManager.js lines 27-42): `null`
for a missing or destroyed window; otherwise always the original width
("to prevent dimension creep") and the constrained current height. -/
def getWindowDimensions (pool : Pool) (windowName : WName) : Option Dims :=
  match pool windowName with
  | none => none
  | some win =>
    if win.destroyed then none
    else
      let original := ORIGINAL_WINDOW_DIMENSIONS windowName
      let current := win.bounds
      some { width := jsOrI (original.bind DimSpec.width) current.width
             height := constrainHeight current.height original
             x := current.x
             y := current.y }

/-- The placement strategy record's `primary` field. -/
inductive Strategy where
  | above
  | below
deriving DecidableEq, Repr

/-- `determineLayoutStrategy` (windowLayoutManager.js lines 302-309).
Only the header bounds and the work area's y/height are read; the other
source parameters are unused by the body and omitted. -/
def determineLayoutStrategy (headerBounds : Bounds) (workArea : Bounds) : Strategy :=
  let spaceAbove := headerBounds.y - workArea.y
  let spaceBelow := workArea.height - (headerBounds.y - workArea.y + headerBounds.height)
  if spaceAbove > spaceBelow then .above else .below

/-- The result of `calculateFeatureWindowLayout`: an object with at most
an `ask` and a `listen` bounds entry. -/
structure LayoutResult where
  ask : Option Bounds
  listen : Option Bounds
deriving DecidableEq, Repr

/-- The empty layout object `{}`. -/
def emptyLayout : LayoutResult := ⟨none, none⟩

/-- `layout[winName] = b` starting from `{}` for a single feature
window. -/
def singleLayout (winName : WName) (b : Bounds) : LayoutResult :=
  { ask := if winName = .ask then some b else none
    listen := if winName = .listen then some b else none }

/-- `visibility.ask && this.windowPool.get('ask') &&
!this.windowPool.get('ask').isDestroyed()` (and the same for listen). -/
def visAndLive (pool : Pool) (flag : Bool) (n : WName) : Bool :=
  flag && (match pool n with
           | some w => !w.destroyed
           | none => false)

/-- The visibility set passed to `calculateFeatureWindowLayout`. -/
structure Visibility where
  ask : Bool
  listen : Bool
deriving DecidableEq, Repr

/-- Body of `calculateFeatureWindowLayout` (windowLayoutManager.js lines
115-204) once `headerBounds` is known; `workArea` is the work area of
the display found by the Electron screen module for the header center.
The impossible `null`-dimension dereferences are embedded as thrown
`TypeError`s, faithful to what the JavaScript would do. -/
def calculateFeatureWindowLayoutWith (pool : Pool) (visibility : Visibility)
    (headerBounds : Bounds) (workArea : Bounds) : Except String LayoutResult :=
  let workAreaX := workArea.x
  let askVis := visAndLive pool visibility.ask .ask
  let listenVis := visAndLive pool visibility.listen .listen
  if !askVis && !listenVis then pure emptyLayout
  else
    let PAD : Int := 8
    let headerCenterXRel : ℚ := (headerBounds.x : ℚ) - workAreaX + (headerBounds.width : ℚ) / 2
    let strategy := determineLayoutStrategy headerBounds workArea
    let askDimensions := if askVis then getWindowDimensions pool .ask else none
    let listenDimensions := if listenVis then getWindowDimensions pool .listen else none
    if askVis && listenVis then
      match askDimensions, listenDimensions with
      | some ad, some ld =>
        let askXRel : ℚ := headerCenterXRel - (ad.width : ℚ) / 2
        let listenXRel : ℚ := askXRel - (ld.width : ℚ) - (PAD : ℚ)
        if strategy = .above then
          let windowBottomAbs : Int := headerBounds.y - PAD
          pure { ask := some ⟨jsRound (askXRel + (workAreaX : ℚ)),
                              windowBottomAbs - ad.height, ad.width, ad.height⟩,
                 listen := some ⟨jsRound (listenXRel + (workAreaX : ℚ)),
                                 windowBottomAbs - ld.height, ld.width, ld.height⟩ }
        else
          let yAbs : Int := headerBounds.y + headerBounds.height + PAD
          pure { ask := some ⟨jsRound (askXRel + (workAreaX : ℚ)), yAbs, ad.width, ad.height⟩,
                 listen := some ⟨jsRound (listenXRel + (workAreaX : ℚ)), yAbs, ld.width, ld.height⟩ }
      | _, _ => Except.error "TypeError: Cannot read properties of null"
    else
      let winName := if askVis then WName.ask else WName.listen
      let winDimensions := if askVis then askDimensions else listenDimensions
      match winDimensions with
      | none => Except.error "TypeError: Cannot read properties of null"
      | some wd =>
        let xRel : ℚ := headerCenterXRel - (wd.width : ℚ) / 2
        if strategy = .above then
          let windowBottomAbs : Int := headerBounds.y - PAD
          pure (singleLayout winName ⟨jsRound (xRel + (workAreaX : ℚ)),
                                      windowBottomAbs - wd.height, wd.width, wd.height⟩)
        else
          let yAbs : Int := headerBounds.y + headerBounds.height + PAD
          pure (singleLayout winName ⟨jsRound (xRel + (workAreaX : ℚ)), yAbs, wd.width, wd.height⟩)

/-- `calculateFeatureWindowLayout` (windowLayoutManager.js lines 98-205).
`headerBounds = headerBoundsOverride || (header ? header.getBounds() :
null)`; a destroyed pooled header makes `getBounds()` throw (there is no
`isDestroyed` guard on this path), a missing header yields `{}`. -/
def calculateFeatureWindowLayout (pool : Pool) (visibility : Visibility)
    (headerBoundsOverride : Option Bounds) (workArea : Bounds) :
    Except String LayoutResult :=
  match headerBoundsOverride with
  | some b => calculateFeatureWindowLayoutWith pool visibility b workArea
  | none =>
    match pool .header with
    | none => pure emptyLayout
    | some h =>
      match jsGetBounds h with
      | Except.error e => Except.error e
      | Except.ok b => calculateFeatureWindowLayoutWith pool visibility b workArea

/-- `calculateSettingsWindowPosition` (windowLayoutManager.js lines
60-83). Both windows are guarded for presence and destruction, so this
never throws; `Math.round` acts on integers and is dropped. -/
def calculateSettingsWindowPosition (pool : Pool) : Except String (Option Bounds) :=
  match pool .header, pool .settings with
  | some header, some settings =>
    if header.destroyed || settings.destroyed then pure none
    else
      let headerBounds := header.bounds
      match getWindowDimensions pool .settings with
      | none => Except.error "TypeError: Cannot read properties of null"
      | some settingsDimensions =>
        let PAD : Int := 5
        let buttonPadding : Int := 170
        pure (some { x := headerBounds.x + headerBounds.width - settingsDimensions.width + buttonPadding
                     y := headerBounds.y + headerBounds.height + PAD
                     width := settingsDimensions.width
                     height := settingsDimensions.height })
  | _, _ => pure none

/-- `calculateShortcutSettingsWindowPosition` (windowLayoutManager.js
lines 207-224). The guard is `!header || !shortcutSettings` only — there
is no `isDestroyed` check, so a destroyed header makes `getBounds()`
throw and a destroyed shortcut-settings window makes
`getWindowDimensions` return `null`, whose `.width` access throws. -/
def calculateShortcutSettingsWindowPosition (pool : Pool) : Except String (Option Bounds) :=
  match pool .header, pool .shortcutSettings with
  | some header, some _shortcutSettings =>
    match jsGetBounds header with
    | Except.error e => Except.error e
    | Except.ok headerBounds =>
      match getWindowDimensions pool .shortcutSettings with
      | none => Except.error "TypeError: Cannot read properties of null"
      | some shortcutDimensions =>
        pure (some { x := jsRound ((headerBounds.x : ℚ) + (headerBounds.width : ℚ) / 2
                                     - (shortcutDimensions.width : ℚ) / 2)
                     y := headerBounds.y
                     width := shortcutDimensions.width
                     height := shortcutDimensions.height })
  | _, _ => pure none

/-- `calculateHeaderResize` (windowLayoutManager.js lines 85-91). -/
def calculateHeaderResize (header : Option Win) (width height : Int) :
    Except String (Option Bounds) :=
  match header with
  | none => pure none
  | some h =>
    if h.destroyed then pure none
    else
      let currentBounds := h.bounds
      let centerX : ℚ := (currentBounds.x : ℚ) + (currentBounds.width : ℚ) / 2
      let newX := jsRound (centerX - (width : ℚ) / 2)
      pure (some { x := newX, y := currentBounds.y, width := width, height := height })

/-- A move direction for step / edge moves. -/
inductive MoveDir where
  | left
  | right
  | up
  | down
deriving DecidableEq, Repr

/-- `calculateStepMovePosition` (windowLayoutManager.js lines 226-249). -/
def calculateStepMovePosition (header : Option Win) (direction : MoveDir) :
    Except String (Option Pos) :=
  match header with
  | none => pure none
  | some h =>
    if h.destroyed then pure none
    else
      let currentBounds := h.bounds
      let stepSize : Int := 80
      let target : Pos :=
        match direction with
        | .left => ⟨currentBounds.x - stepSize, currentBounds.y⟩
        | .right => ⟨currentBounds.x + stepSize, currentBounds.y⟩
        | .up => ⟨currentBounds.x, currentBounds.y - stepSize⟩
        | .down => ⟨currentBounds.x, currentBounds.y + stepSize⟩
      pure (some target)

/-- A display as seen through the Electron screen module. -/
structure Display where
  id : Int
  workArea : Bounds
deriving DecidableEq, Repr

/-- `calculateEdgePosition` (windowLayoutManager.js lines 271-289);
`display` is the environment's nearest display for the header center.
Only left/right are handled by the switch; other directions fall through
with the current x. -/
def calculateEdgePosition (header : Option Win) (direction : MoveDir)
    (display : Display) : Except String (Option Pos) :=
  match header with
  | none => pure none
  | some h =>
    if h.destroyed then pure none
    else
      let currentBounds := h.bounds
      let workAreaX := display.workArea.x
      let workAreaWidth := display.workArea.width
      let targetX : Int :=
        match direction with
        | .left => workAreaX + 20
        | .right => workAreaX + workAreaWidth - currentBounds.width - 20
        | _ => currentBounds.x
      pure (some ⟨targetX, currentBounds.y⟩)

/-- `calculateNewPositionForDisplay` (windowLayoutManager.js lines
251-269); `displays` models `screen.getAllDisplays()` and
`currentDisplay` the nearest display of the window (`getCurrentDisplay`).
Work areas are assumed to have nonzero extent (true of real displays). -/
def calculateNewPositionForDisplay (window : Option Win) (targetDisplayId : Int)
    (displays : List Display) (currentDisplay : Display) :
    Except String (Option Pos) :=
  match window with
  | none => pure none
  | some w =>
    if w.destroyed then pure none
    else
      match displays.find? (fun d => d.id = targetDisplayId) with
      | none => pure none
      | some targetDisplay =>
        let currentBounds := w.bounds
        if currentDisplay.id = targetDisplay.id then
          pure (some ⟨currentBounds.x, currentBounds.y⟩)
        else
          let relativeX : ℚ :=
            ((currentBounds.x : ℚ) - (currentDisplay.workArea.x : ℚ)) / (currentDisplay.workArea.width : ℚ)
          let relativeY : ℚ :=
            ((currentBounds.y : ℚ) - (currentDisplay.workArea.y : ℚ)) / (currentDisplay.workArea.height : ℚ)
          let targetX : ℚ := (targetDisplay.workArea.x : ℚ) + (targetDisplay.workArea.width : ℚ) * relativeX
          let targetY : ℚ := (targetDisplay.workArea.y : ℚ) + (targetDisplay.workArea.height : ℚ) * relativeY
          pure (some ⟨jsRound targetX, jsRound targetY⟩)

/-- `calculateWindowHeightAdjustment` (windowLayoutManager.js lines
291-300). -/
def calculateWindowHeightAdjustment (window : Option Win) (targetHeight : Int) :
    Except String (Option Bounds) :=
  match window with
  | none => pure none
  | some w =>
    if w.destroyed then pure none
    else
      let currentBounds := w.bounds
      pure (some { x := currentBounds.x, y := currentBounds.y
                   width := currentBounds.width, height := targetHeight })

/-! ## windowManager.js — module state and the window controller -/

/-- Commands issued to the `SmoothMovementManager` (the motion engine is
out of the embedded scope; the controller's calls to it are recorded). -/
inductive MMCmd where
  | fade (n : WName) (targetOpacity : ℚ)
  | fadeOutThenHide (n : WName)
  | animateWindowPosition (n : WName) (p : Pos)
  | animateLayout (l : LayoutResult)
deriving DecidableEq, Repr

/-- Window-manager module state touched by the visibility handlers:
the window pool, the pending `settingsHideTimer`, and the module-level
`lastVisibleWindows` set (windowManager.js line 31). -/
structure WMState where
  pool : Pool
  settingsHideTimerPending : Bool
  lastVisibleWindows : WName → Bool

/-- Update the pooled window under `n` (if present) with `f`. -/
def updateWin (pool : Pool) (n : WName) (f : Win → Win) : Pool :=
  fun m => if m = n then (pool m).map f else pool m

/-- `applyAggressiveAlwaysOnTop` (windowManager.js lines 44-53): no-op on
a missing or destroyed window, otherwise sets screen-saver-level
always-on-top. -/
def applyAggressiveAlwaysOnTopP (pool : Pool) (n : WName) : Pool :=
  match pool n with
  | none => pool
  | some w =>
    if w.destroyed then pool
    else updateWin pool n (fun w => { w with alwaysOnTop := true })

/-- `removeAggressiveAlwaysOnTop` (windowManager.js lines 54-57). -/
def removeAggressiveAlwaysOnTopP (pool : Pool) (n : WName) : Pool :=
  match pool n with
  | none => pool
  | some w =>
    if w.destroyed then pool
    else updateWin pool n (fun w => { w with alwaysOnTop := false })

/-- `disableClicks(selectedWindow)` inside `handleWindowVisibilityRequest`
(windowManager.js lines 306-312): every other live pooled window gets
mouse events forwarded. Handles are compared by pool name (the pool
holds at most one live handle per name). -/
def disableClicks (pool : Pool) (selected : WName) : Pool :=
  fun m =>
    match pool m with
    | some w => if m ≠ selected ∧ !w.destroyed then some { w with ignoreMouse := true } else some w
    | none => none

/-- `restoreClicks` (windowManager.js lines 314-318). -/
def restoreClicks (pool : Pool) : Pool :=
  fun m =>
    match pool m with
    | some w => if !w.destroyed then some { w with ignoreMouse := false } else some w
    | none => none

/-- Hidden branch of `changeAllWindowsVisibility` after the early
returns (windowManager.js lines 272-293): records and hides the visible
set while the header is visible, otherwise re-shows the recorded set. -/
def changeAllWindowsVisibilityRest (st : WMState) (header : Win) : Except String WMState :=
  match jsIsVisible header with
  | Except.error e => Except.error e
  | Except.ok hv =>
    if hv then
      let recorded : WName → Bool := fun n =>
        match st.pool n with
        | some w => !w.destroyed && w.visible
        | none => false
      let pool₁ : Pool := fun n =>
        if recorded n ∧ n ≠ .header then
          match st.pool n with
          | some w => if !w.destroyed then some { w with visible := false } else some w
          | none => none
        else st.pool n
      let pool₂ : Pool := updateWin pool₁ .header (fun w => { w with visible := false })
      pure { st with pool := pool₂, lastVisibleWindows := recorded }
    else
      let pool₁ : Pool := fun n =>
        if st.lastVisibleWindows n then
          match st.pool n with
          | some w => if !w.destroyed then some { w with visible := true } else some w
          | none => none
        else st.pool n
      pure { st with pool := pool₁ }

/-- `changeAllWindowsVisibility` (windowManager.js lines 264-294).
`targetVisibility` is `some b` for a boolean argument, `none` for a
non-boolean one (the early-return test is guarded by
`typeof targetVisibility === 'boolean'`). -/
def changeAllWindowsVisibility (st : WMState) (targetVisibility : Option Bool) :
    Except String WMState :=
  match st.pool .header with
  | none => pure st
  | some header =>
    match targetVisibility with
    | some b =>
      match jsIsVisible header with
      | Except.error e => Except.error e
      | Except.ok hv =>
        if hv = b then pure st else changeAllWindowsVisibilityRest st header
    | none => changeAllWindowsVisibilityRest st header

/-- `handleWindowVisibilityRequest` (windowManager.js lines 297-420).
`workArea` is the work area the Electron screen module reports for the
header's display. Direct window mutations are applied to the state;
motion-engine calls are returned as a command list. -/
def handleWindowVisibilityRequest (st : WMState) (workArea : Bounds)
    (name : WName) (shouldBeVisible : Bool) :
    Except String (WMState × List MMCmd) :=
  match st.pool name with
  | none => pure (st, [])
  | some win =>
    if win.destroyed then pure (st, [])
    else if name ≠ WName.settings ∧ win.visible = shouldBeVisible then pure (st, [])
    else if name = WName.settings then
      if shouldBeVisible then
        let st₁ : WMState := { st with settingsHideTimerPending := false }
        match calculateSettingsWindowPosition st₁.pool with
        | Except.error e => Except.error e
        | Except.ok none => pure (st₁, [])
        | Except.ok (some position) =>
          let pool₁ := updateWin st₁.pool .settings
            (fun w => { w with bounds := position, lockedByButton := true, visible := true })
          let pool₂ := applyAggressiveAlwaysOnTopP pool₁ .settings
          pure ({ st₁ with pool := pool₂ }, [])
      else
        let st₁ : WMState := { st with settingsHideTimerPending := true }
        let pool₁ := updateWin st₁.pool .settings (fun w => { w with lockedByButton := false })
        pure ({ st₁ with pool := pool₁ }, [])
    else if name = WName.shortcutSettings then
      if shouldBeVisible then
        match calculateShortcutSettingsWindowPosition st.pool with
        | Except.error e => Except.error e
        | Except.ok newBounds =>
          let pool₁ :=
            match newBounds with
            | some b => updateWin st.pool .shortcutSettings (fun w => { w with bounds := b })
            | none => st.pool
          let pool₂ := applyAggressiveAlwaysOnTopP pool₁ .shortcutSettings
          let pool₃ := disableClicks pool₂ .shortcutSettings
          let pool₄ := updateWin pool₃ .shortcutSettings (fun w => { w with visible := true })
          pure ({ st with pool := pool₄ }, [])
      else
        let pool₁ := removeAggressiveAlwaysOnTopP st.pool .shortcutSettings
        let pool₂ := restoreClicks pool₁
        let pool₃ := updateWin pool₂ .shortcutSettings (fun w => { w with visible := false })
        pure ({ st with pool := pool₃ }, [])
    else if name = WName.listen ∨ name = WName.ask then
      let otherName := if name = WName.listen then WName.ask else WName.listen
      let isOtherWinVisible :=
        match st.pool otherName with
        | some ow => !ow.destroyed && ow.visible
        | none => false
      let ANIM_OFFSET_X : Int := 50
      let ANIM_OFFSET_Y : Int := 20
      let fv : Visibility :=
        { listen := (decide (name = WName.listen) && shouldBeVisible)
                      || (decide (otherName = WName.listen) && isOtherWinVisible)
          ask := (decide (name = WName.ask) && shouldBeVisible)
                   || (decide (otherName = WName.ask) && isOtherWinVisible) }
      let finalVisibility : Visibility :=
        if !shouldBeVisible then
          if name = WName.listen then { fv with listen := false } else { fv with ask := false }
        else fv
      match calculateFeatureWindowLayout st.pool finalVisibility none workArea with
      | Except.error e => Except.error e
      | Except.ok targetLayout =>
        if shouldBeVisible then
          match (if name = WName.ask then targetLayout.ask else targetLayout.listen) with
          | none => pure (st, [])
          | some targetBounds =>
            let startPos : Bounds :=
              if name = WName.listen then { targetBounds with x := targetBounds.x - ANIM_OFFSET_X }
              else { targetBounds with y := targetBounds.y - ANIM_OFFSET_Y }
            let pool₁ := updateWin st.pool name
              (fun w => { w with opacity := 0, bounds := startPos, visible := true })
            let pool₂ := applyAggressiveAlwaysOnTopP pool₁ name
            pure ({ st with pool := pool₂ },
                  [MMCmd.fade name 1, MMCmd.animateLayout targetLayout])
        else
          if !win.visible then pure (st, [])
          else
            let currentBounds := win.bounds
            let targetPos : Pos :=
              if name = WName.listen then ⟨currentBounds.x - ANIM_OFFSET_X, currentBounds.y⟩
              else ⟨currentBounds.x, currentBounds.y - ANIM_OFFSET_Y⟩
            let otherWindowsLayout :=
              if name = WName.ask then { targetLayout with ask := none }
              else { targetLayout with listen := none }
            pure (st,
                  [MMCmd.fadeOutThenHide name,
                   MMCmd.animateWindowPosition name targetPos,
                   MMCmd.animateLayout otherWindowsLayout])
    else pure (st, [])

/-! ## windowManager.js — focus guardian module flags -/

/-- Focus-relevant module state of windowManager.js: the two module
flags (lines 32-33; `shouldMaintainFocus` is initialized `true` and
never reassigned anywhere in the source) plus the header / environment
facts the handlers read. `otherAppActive` models
`BrowserWindow.getFocusedWindow()` returning a window outside the
pool. -/
structure FocusState where
  shouldMaintainFocus : Bool
  aggressiveFocusMode : Bool
  headerDestroyed : Bool
  headerFocused : Bool
  headerVisible : Bool
  headerAlwaysOnTop : Bool
  otherAppActive : Bool
deriving DecidableEq, Repr

/-- The module-initial focus flags (windowManager.js lines 32-33). -/
def initFocusFlags (headerDestroyed headerFocused headerVisible headerAlwaysOnTop otherAppActive : Bool) :
    FocusState :=
  { shouldMaintainFocus := true
    aggressiveFocusMode := true
    headerDestroyed := headerDestroyed
    headerFocused := headerFocused
    headerVisible := headerVisible
    headerAlwaysOnTop := headerAlwaysOnTop
    otherAppActive := otherAppActive }

/-- `setAggressiveFocusMode` (windowManager.js lines 687-690). -/
def setAggressiveFocusMode (s : FocusState) (enabled : Bool) : FocusState :=
  { s with aggressiveFocusMode := enabled }

/-- The timer body of `restoreFocusIfNeeded` (windowManager.js lines
589-604): gated by `shouldMaintainFocus` (not by
`aggressiveFocusMode`); re-applies screen-saver always-on-top and
refocuses the header unless an external app holds focus. The try/catch
swallows platform failures; the model takes the success path. -/
def restoreFocusIfNeededFire (s : FocusState) : FocusState :=
  if !s.headerDestroyed && !s.headerFocused && s.headerVisible && s.shouldMaintainFocus then
    if s.otherAppActive then s
    else { s with headerAlwaysOnTop := true, headerFocused := true }
  else s

/-- The header `blur` handler's 500ms settle callback (windowManager.js
lines 607-616): when no external app took focus, it invokes
`restoreFocusIfNeeded`. -/
def blurHandlerSettle (s : FocusState) : FocusState :=
  if s.headerVisible && s.headerAlwaysOnTop then
    if !s.otherAppActive then restoreFocusIfNeededFire s else s
  else s

/-! ## crashRecoveryManager.js — bounded recovery state machine -/

/-- Per-window recovery bookkeeping: the `recoveryAttempts` counter for
one window name (`get(...) || 0` semantics, deletion resets to 0),
whether a recreation attempt is currently scheduled via `setTimeout`,
and how many times `showCrashDialog` has been invoked. -/
structure RecoveryState where
  attempts : Nat
  pendingAttempt : Bool
  dialogsShown : Nat
deriving DecidableEq, Repr

/-- `this.maxRecoveryAttempts = 3` (crashRecoveryManager.js line 18). -/
def maxRecoveryAttempts : Nat := 3

/-- The recovery decision of `handleRendererCrash` for one window name
(crashRecoveryManager.js lines 102-118): under the cap, increment the
counter and schedule a recreation attempt; at the cap, show the fatal
dialog and schedule nothing. -/
def handleRendererCrash (s : RecoveryState) : RecoveryState :=
  let attempts := s.attempts
  if attempts < maxRecoveryAttempts then
    { s with attempts := attempts + 1, pendingAttempt := true }
  else
    { s with dialogsShown := s.dialogsShown + 1 }

/-- One scheduled `attemptWindowRecovery` run (crashRecoveryManager.js
lines 151-187): the pending timer fires; on success the counter is
deleted, on failure the attempt is re-scheduled while under the cap,
otherwise the fatal dialog is shown. -/
def attemptWindowRecoveryRun (s : RecoveryState) (success : Bool) : RecoveryState :=
  let s₁ : RecoveryState := { s with pendingAttempt := false }
  if success then
    { s₁ with attempts := 0 }
  else
    let attempts := s₁.attempts
    if attempts < maxRecoveryAttempts then
      { s₁ with attempts := attempts + 1, pendingAttempt := true }
    else
      { s₁ with dialogsShown := s₁.dialogsShown + 1 }

/-! ## AskView.js — renderer side of the content-fit resize protocol -/

/-- The DOM facts `adjustWindowHeight` reads: presence of
`window.api`, presence/hidden state and measured heights of the
header / response / nav / input regions. -/
structure AskViewMeasure where
  apiPresent : Bool
  headerPresent : Bool
  responsePresent : Bool
  headerHidden : Bool
  headerOffsetHeight : Nat
  responseScrollHeight : Nat
  navPresent : Bool
  navHidden : Bool
  navOffsetHeight : Nat
  inputPresent : Bool
  inputHidden : Bool
  inputOffsetHeight : Nat
deriving DecidableEq, Repr

/-- `idealHeight` as computed by `adjustWindowHeight` (AskView.js lines
2115-2121): hidden header counts 0, response scrollHeight always
counts, nav and input count only when present and not hidden. -/
def idealHeight (m : AskViewMeasure) : Nat :=
  (if m.headerHidden then 0 else m.headerOffsetHeight)
    + m.responseScrollHeight
    + (if m.navPresent && !m.navHidden then m.navOffsetHeight else 0)
    + (if m.inputPresent && !m.inputHidden then m.inputOffsetHeight else 0)

/-- The resize IPC message `window.api.askView.adjustWindowHeight("ask",
targetHeight)`. -/
structure ResizeRequest where
  winName : WName
  targetHeight : Nat
deriving DecidableEq, Repr

/-- One run of `adjustWindowHeight` (AskView.js lines 2104-2128): early
exit without a message if `window.api` or the header/response elements
are missing, otherwise exactly one request with
`Math.min(700, idealHeight)`. -/
def adjustWindowHeightRun (m : AskViewMeasure) : Option ResizeRequest :=
  if !m.apiPresent then none
  else if !(m.headerPresent && m.responsePresent) then none
  else some ⟨WName.ask, min 700 (idealHeight m)⟩

/-- `adjustWindowHeightThrottled` (AskView.js lines 2131-2139) applied
`n` times within one animation frame, starting from throttle flag `s`:
returns the final `isThrottled` flag and how many `requestAnimationFrame`
callbacks were scheduled (the flag is cleared only when a callback runs,
which happens at the frame boundary). -/
def runThrottledCalls : Bool → Nat → Bool × Nat
  | s, 0 => (s, 0)
  | s, n + 1 =>
    if s then runThrottledCalls s n
    else
      let r := runThrottledCalls true n
      (r.1, r.2 + 1)

/-- The resize requests actually sent for one animation frame in which
`adjustWindowHeightThrottled` was invoked `n` times (render passes) and
the DOM measures `m` at the frame boundary: each scheduled callback runs
`adjustWindowHeight` against the then-current DOM. -/
def frameResizeRequests (n : Nat) (m : AskViewMeasure) : List ResizeRequest :=
  (List.replicate (runThrottledCalls false n).2 (adjustWindowHeightRun m)).reduceOption

/-! ## Helper lemmas about the geometry embedding -/

/-- A true `visAndLive` check yields the flag and a live pooled window. -/
theorem live_of_visAndLive {pool : Pool} {flag : Bool} {n : WName}
    (h : visAndLive pool flag n = true) :
    flag = true ∧ ∃ w, pool n = some w ∧ w.destroyed = false := by
  unfold visAndLive at h
  cases hp : pool n with
  | none => rw [hp] at h; simp at h
  | some w =>
    rw [hp] at h
    simp at h
    exact ⟨h.1, w, rfl, h.2⟩

/-- `getWindowDimensions` for a live ask window: nominal width 600. -/
theorem gwd_ask_eq {pool : Pool} {aw : Win}
    (ha : pool .ask = some aw) (ha2 : aw.destroyed = false) :
    getWindowDimensions pool .ask =
      some ⟨600, constrainHeight aw.bounds.height (ORIGINAL_WINDOW_DIMENSIONS .ask),
            aw.bounds.x, aw.bounds.y⟩ := by
  unfold getWindowDimensions
  rw [ha]
  simp [ha2, ORIGINAL_WINDOW_DIMENSIONS, jsOrI]

/-- `getWindowDimensions` for a live listen window: nominal width 400. -/
theorem gwd_listen_eq {pool : Pool} {lw : Win}
    (hl : pool .listen = some lw) (hl2 : lw.destroyed = false) :
    getWindowDimensions pool .listen =
      some ⟨400, constrainHeight lw.bounds.height (ORIGINAL_WINDOW_DIMENSIONS .listen),
            lw.bounds.x, lw.bounds.y⟩ := by
  unfold getWindowDimensions
  rw [hl]
  simp [hl2, ORIGINAL_WINDOW_DIMENSIONS, jsOrI]

/-- The horizontal center of a bounds rectangle, in ℚ. -/
def centerX (b : Bounds) : ℚ := (b.x : ℚ) + (b.width : ℚ) / 2

/-- The horizontal center of the combined span from the listen window's
left edge to the ask window's right edge. -/
def spanCenterX (lb ab : Bounds) : ℚ := ((lb.x : ℚ) + ((ab.x : ℚ) + (ab.width : ℚ))) / 2

/-- Axis-aligned rectangle overlap. -/
def rectsOverlap (a b : Bounds) : Prop :=
  a.x < b.x + b.width ∧ b.x < a.x + a.width ∧ a.y < b.y + b.height ∧ b.y < a.y + a.height

/-- `jsRound` only depends on the value of its argument. -/
theorem jsRound_congr {q r : ℚ} (h : q = r) : jsRound q = jsRound r := by rw [h]

/-- `jsRound` of a value an integer amount below `r`. -/
theorem jsRound_shift_left {q r : ℚ} (n : ℤ) (h : q = r - n) :
    jsRound q = jsRound r - n := by rw [h, jsRound_sub_int]

/-- Reduction of the layout body when ask and listen are both requested
and live: explicit entries, nominal widths, ask centered at
`headerCenterX - 300`, listen 408 px to its left. -/
theorem calcWith_both_reduce {pool : Pool} {vis : Visibility} (hb wa : Bounds)
    {aw lw : Win}
    (ha : pool .ask = some aw) (ha2 : aw.destroyed = false) (hva : vis.ask = true)
    (hl : pool .listen = some lw) (hl2 : lw.destroyed = false) (hvl : vis.listen = true) :
    ∃ ab lb, calculateFeatureWindowLayoutWith pool vis hb wa = Except.ok ⟨some ab, some lb⟩ ∧
      ab.width = 600 ∧ lb.width = 400 ∧
      ab.x = jsRound ((hb.x : ℚ) + (hb.width : ℚ) / 2 - 300) ∧
      lb.x = ab.x - 408 := by
  have hA : visAndLive pool vis.ask .ask = true := by
    unfold visAndLive; rw [ha, hva]; simp [ha2]
  have hL : visAndLive pool vis.listen .listen = true := by
    unfold visAndLive; rw [hl, hvl]; simp [hl2]
  unfold calculateFeatureWindowLayoutWith
  rw [hA, hL, gwd_ask_eq ha ha2, gwd_listen_eq hl hl2]
  norm_num
  by_cases hs : determineLayoutStrategy hb wa = Strategy.above
  · rw [if_pos hs]
    refine ⟨_, _, rfl, rfl, rfl, ?_, ?_⟩
    · exact jsRound_congr (by ring)
    · exact jsRound_shift_left 408 (by push_cast; ring)
  · rw [if_neg hs]
    refine ⟨_, _, rfl, rfl, rfl, ?_, ?_⟩
    · exact jsRound_congr (by ring)
    · exact jsRound_shift_left 408 (by push_cast; ring)

/-- Reduction of the layout body when only ask is requested and live. -/
theorem calcWith_ask_only_reduce {pool : Pool} {vis : Visibility} (hb wa : Bounds)
    {aw : Win}
    (ha : pool .ask = some aw) (ha2 : aw.destroyed = false) (hva : vis.ask = true)
    (hlv : visAndLive pool vis.listen .listen = false) :
    ∃ ab, calculateFeatureWindowLayoutWith pool vis hb wa = Except.ok ⟨some ab, none⟩ ∧
      ab.width = 600 ∧
      ab.x = jsRound ((hb.x : ℚ) + (hb.width : ℚ) / 2 - 300) := by
  have hA : visAndLive pool vis.ask .ask = true := by
    unfold visAndLive; rw [ha, hva]; simp [ha2]
  unfold calculateFeatureWindowLayoutWith
  rw [hA, hlv, gwd_ask_eq ha ha2]
  simp only [singleLayout]
  norm_num
  by_cases hs : determineLayoutStrategy hb wa = Strategy.above
  · rw [if_pos hs]
    refine ⟨_, rfl, rfl, ?_⟩
    exact jsRound_congr (by ring)
  · rw [if_neg hs]
    refine ⟨_, rfl, rfl, ?_⟩
    exact jsRound_congr (by ring)

/-- Reduction of the layout body when only listen is requested and
live. -/
theorem calcWith_listen_only_reduce {pool : Pool} {vis : Visibility} (hb wa : Bounds)
    {lw : Win}
    (hl : pool .listen = some lw) (hl2 : lw.destroyed = false) (hvl : vis.listen = true)
    (hav : visAndLive pool vis.ask .ask = false) :
    ∃ lb, calculateFeatureWindowLayoutWith pool vis hb wa = Except.ok ⟨none, some lb⟩ ∧
      lb.width = 400 ∧
      lb.x = jsRound ((hb.x : ℚ) + (hb.width : ℚ) / 2 - 200) := by
  have hL : visAndLive pool vis.listen .listen = true := by
    unfold visAndLive; rw [hl, hvl]; simp [hl2]
  unfold calculateFeatureWindowLayoutWith
  rw [hL, hav, gwd_listen_eq hl hl2]
  simp only [singleLayout]
  norm_num
  by_cases hs : determineLayoutStrategy hb wa = Strategy.above
  · rw [if_pos hs]
    refine ⟨_, rfl, rfl, ?_⟩
    exact jsRound_congr (by ring)
  · rw [if_neg hs]
    refine ⟨_, rfl, rfl, ?_⟩
    exact jsRound_congr (by ring)

/-- Reduction of the layout body when neither feature window is
requested and live: the empty layout. -/
theorem calcWith_none_reduce {pool : Pool} {vis : Visibility} (hb wa : Bounds)
    (hav : visAndLive pool vis.ask .ask = false)
    (hlv : visAndLive pool vis.listen .listen = false) :
    calculateFeatureWindowLayoutWith pool vis hb wa = Except.ok emptyLayout := by
  unfold calculateFeatureWindowLayoutWith
  rw [hav, hlv]
  norm_num
  rfl

/-! ## Shared concrete fixtures -/

/-- A live, visible window with the given bounds. -/
def mkWin (b : Bounds) : Win := ⟨b, false, true, 1, false, false, false⟩

/-- A destroyed window handle still sitting in the pool. -/
def mkDestroyedWin (b : Bounds) : Win := ⟨b, true, true, 1, false, false, false⟩

/-- A pool holding live ask and listen windows with the given current
bounds, and nothing else. -/
def poolAskListen (ab lb : Bounds) : Pool :=
  fun n =>
    match n with
    | .ask => some (mkWin ab)
    | .listen => some (mkWin lb)
    | _ => none

/-- A pool holding a live header and a destroyed shortcut-settings
handle. -/
def poolHeaderDeadShortcut : Pool :=
  fun n =>
    match n with
    | .header => some (mkWin ⟨0, 0, 353, 47⟩)
    | .shortcutSettings => some (mkDestroyedWin ⟨0, 0, 353, 720⟩)
    | _ => none

/-! ## Claim theorems -/

/-- C4: the placement strategy is `above` iff the vertical space above
the header inside the work area strictly exceeds the space below it
(work-area bottom minus header bottom); equal space yields `below`. -/
theorem c4_strategy_above_iff (headerBounds workArea : Bounds) :
    (determineLayoutStrategy headerBounds workArea = Strategy.above ↔
      headerBounds.y - workArea.y >
        (workArea.y + workArea.height) - (headerBounds.y + headerBounds.height)) ∧
    (headerBounds.y - workArea.y =
        (workArea.y + workArea.height) - (headerBounds.y + headerBounds.height) →
      determineLayoutStrategy headerBounds workArea = Strategy.below) := by
  simp only [determineLayoutStrategy]
  constructor
  · constructor
    · intro hA
      by_contra hnot
      rw [if_neg (by omega)] at hA
      simp at hA
    · intro hgt
      rw [if_pos (by omega)]
  · intro heq
    rw [if_neg (by omega)]

/-- C4 witness: a header with exactly equal space above and below ends
up `below`. -/
theorem c4_strategy_above_iff_witness :
    determineLayoutStrategy ⟨0, 400, 100, 200⟩ ⟨0, 0, 1000, 1000⟩ = Strategy.below :=
  (c4_strategy_above_iff ⟨0, 400, 100, 200⟩ ⟨0, 0, 1000, 1000⟩).2 (by decide)

/-- Wrapper reduction: no override and no pooled header yields `{}`. -/
theorem calcLayout_no_header {pool : Pool} {vis : Visibility} {wa : Bounds}
    (hp : pool .header = none) :
    calculateFeatureWindowLayout pool vis none wa = Except.ok emptyLayout := by
  unfold calculateFeatureWindowLayout
  rw [hp]
  rfl

/-- Wrapper reduction: no override with a pooled header goes through
`getBounds`. -/
theorem calcLayout_pooled_header {pool : Pool} {vis : Visibility} {wa : Bounds} {hwin : Win}
    (hp : pool .header = some hwin) :
    calculateFeatureWindowLayout pool vis none wa =
      (match jsGetBounds hwin with
       | Except.error e => Except.error e
       | Except.ok b => calculateFeatureWindowLayoutWith pool vis b wa) := by
  unfold calculateFeatureWindowLayout
  rw [hp]

/-- C1: every ask entry returned by `calculateFeatureWindowLayout` has
width exactly 600 and every listen entry width exactly 400, for every
pool (hence for every mutated live width of the windows), visibility
set, header-bounds override and work area — so repeated layout passes
can never change the returned widths. -/
theorem c1_layout_width_nominal (pool : Pool) (visibility : Visibility)
    (headerBoundsOverride : Option Bounds) (workArea : Bounds) (l : LayoutResult)
    (h : calculateFeatureWindowLayout pool visibility headerBoundsOverride workArea =
      Except.ok l) :
    (∀ b, l.ask = some b → b.width = 600) ∧ (∀ b, l.listen = some b → b.width = 400) := by
  have key : ∀ hb : Bounds,
      calculateFeatureWindowLayoutWith pool visibility hb workArea = Except.ok l →
      (∀ b, l.ask = some b → b.width = 600) ∧ (∀ b, l.listen = some b → b.width = 400) := by
    intro hb hw
    by_cases hA : visAndLive pool visibility.ask .ask = true
    · obtain ⟨hva, aw, haw, hawd⟩ := live_of_visAndLive hA
      by_cases hL : visAndLive pool visibility.listen .listen = true
      · obtain ⟨hvl, lw, hlw, hlwd⟩ := live_of_visAndLive hL
        obtain ⟨ab, lb, heq, hw6, hw4, -, -⟩ :=
          calcWith_both_reduce hb workArea haw hawd hva hlw hlwd hvl
        rw [heq] at hw
        injection hw with hw2
        subst hw2
        constructor
        · intro b hb2
          simp only [Option.some.injEq] at hb2
          subst hb2; exact hw6
        · intro b hb2
          simp only [Option.some.injEq] at hb2
          subst hb2; exact hw4
      · have hLf : visAndLive pool visibility.listen .listen = false := by
          simpa using hL
        obtain ⟨ab, heq, hw6, -⟩ :=
          calcWith_ask_only_reduce hb workArea haw hawd hva hLf
        rw [heq] at hw
        injection hw with hw2
        subst hw2
        constructor
        · intro b hb2
          simp only [Option.some.injEq] at hb2
          subst hb2; exact hw6
        · intro b hb2
          simp at hb2
    · have hAf : visAndLive pool visibility.ask .ask = false := by simpa using hA
      by_cases hL : visAndLive pool visibility.listen .listen = true
      · obtain ⟨hvl, lw, hlw, hlwd⟩ := live_of_visAndLive hL
        obtain ⟨lb, heq, hw4, -⟩ :=
          calcWith_listen_only_reduce hb workArea hlw hlwd hvl hAf
        rw [heq] at hw
        injection hw with hw2
        subst hw2
        constructor
        · intro b hb2
          simp at hb2
        · intro b hb2
          simp only [Option.some.injEq] at hb2
          subst hb2; exact hw4
      · have hLf : visAndLive pool visibility.listen .listen = false := by
          simpa using hL
        rw [calcWith_none_reduce hb workArea hAf hLf] at hw
        injection hw with hw2
        subst hw2
        constructor
        · intro b hb2
          simp [emptyLayout] at hb2
        · intro b hb2
          simp [emptyLayout] at hb2
  cases headerBoundsOverride with
  | some b => exact key b h
  | none =>
    cases hp : pool .header with
    | none =>
      rw [calcLayout_no_header hp] at h
      injection h with h2
      subst h2
      constructor
      · intro b hb2; simp [emptyLayout] at hb2
      · intro b hb2; simp [emptyLayout] at hb2
    | some hwin =>
      rw [calcLayout_pooled_header hp] at h
      cases hd : jsGetBounds hwin with
      | error e => rw [hd] at h; cases h
      | ok b => rw [hd] at h; exact key b h

/-- C1 witness: with the ask window's live width mutated to 999 and the
listen window's to 555, the layout still returns widths 600 and 400. -/
theorem c1_layout_width_nominal_witness :
    calculateFeatureWindowLayout (poolAskListen ⟨0, 0, 999, 400⟩ ⟨0, 0, 555, 300⟩)
        ⟨true, true⟩ (some ⟨1000, 500, 100, 40⟩) ⟨0, 0, 2000, 1200⟩ =
      Except.ok ⟨some ⟨750, 548, 600, 400⟩, some ⟨342, 548, 400, 300⟩⟩ ∧
    ((∀ b, (⟨some ⟨750, 548, 600, 400⟩, some ⟨342, 548, 400, 300⟩⟩ : LayoutResult).ask =
        some b → b.width = 600) ∧
     (∀ b, (⟨some ⟨750, 548, 600, 400⟩, some ⟨342, 548, 400, 300⟩⟩ : LayoutResult).listen =
        some b → b.width = 400)) :=
  ⟨by
    unfold calculateFeatureWindowLayout calculateFeatureWindowLayoutWith
    norm_num [visAndLive, poolAskListen, mkWin, getWindowDimensions,
      ORIGINAL_WINDOW_DIMENSIONS, jsOrI, constrainHeight, truthyI, valI,
      determineLayoutStrategy, jsRound]
    rw [if_neg (by decide)]
    rfl,
   c1_layout_width_nominal (poolAskListen ⟨0, 0, 999, 400⟩ ⟨0, 0, 555, 300⟩)
     ⟨true, true⟩ (some ⟨1000, 500, 100, 40⟩) ⟨0, 0, 2000, 1200⟩
     ⟨some ⟨750, 548, 600, 400⟩, some ⟨342, 548, 400, 300⟩⟩ (by
    unfold calculateFeatureWindowLayout calculateFeatureWindowLayoutWith
    norm_num [visAndLive, poolAskListen, mkWin, getWindowDimensions,
      ORIGINAL_WINDOW_DIMENSIONS, jsOrI, constrainHeight, truthyI, valI,
      determineLayoutStrategy, jsRound]
    rw [if_neg (by decide)]
    rfl)⟩

/-- C2: contrary to the edge-case policy,
`calculateShortcutSettingsWindowPosition` does not return null on a
destroyed shortcut-settings window — `getWindowDimensions` returns null
and the subsequent `.width` access throws a TypeError. -/
theorem c2_shortcut_settings_destroyed_throws :
    calculateShortcutSettingsWindowPosition poolHeaderDeadShortcut =
      Except.error "TypeError: Cannot read properties of null" := by
  rfl

/-- C3: starting with a clean counter, a renderer crash followed by
`maxRecoveryAttempts` (3) consecutive failed recovery attempts leaves no
recreation attempt scheduled, shows the fatal crash dialog exactly once,
and leaves the counter saturated at the cap. -/
theorem c3_recovery_cap (s : RecoveryState) (h0 : s.attempts = 0) :
    (attemptWindowRecoveryRun (attemptWindowRecoveryRun (attemptWindowRecoveryRun
        (handleRendererCrash s) false) false) false).pendingAttempt = false ∧
    (attemptWindowRecoveryRun (attemptWindowRecoveryRun (attemptWindowRecoveryRun
        (handleRendererCrash s) false) false) false).dialogsShown = s.dialogsShown + 1 ∧
    (attemptWindowRecoveryRun (attemptWindowRecoveryRun (attemptWindowRecoveryRun
        (handleRendererCrash s) false) false) false).attempts = maxRecoveryAttempts := by
  simp [handleRendererCrash, attemptWindowRecoveryRun, maxRecoveryAttempts, h0]

/-- C3 witness at the fresh recovery state. -/
theorem c3_recovery_cap_witness :
    (attemptWindowRecoveryRun (attemptWindowRecoveryRun (attemptWindowRecoveryRun
        (handleRendererCrash ⟨0, false, 0⟩) false) false) false).pendingAttempt = false ∧
    (attemptWindowRecoveryRun (attemptWindowRecoveryRun (attemptWindowRecoveryRun
        (handleRendererCrash ⟨0, false, 0⟩) false) false) false).dialogsShown = 0 + 1 ∧
    (attemptWindowRecoveryRun (attemptWindowRecoveryRun (attemptWindowRecoveryRun
        (handleRendererCrash ⟨0, false, 0⟩) false) false) false).attempts = maxRecoveryAttempts :=
  c3_recovery_cap ⟨0, false, 0⟩ rfl

/-- C7: after `setAggressiveFocusMode false`, a blur with no external
app focused still re-applies always-on-top and refocuses the header —
the reassertion path is gated by the constant `shouldMaintainFocus`
flag, not by the aggressive-focus toggle. -/
theorem c7_focus_reasserted_despite_toggle_off :
    (setAggressiveFocusMode (initFocusFlags false false true true false)
        false).aggressiveFocusMode = false ∧
    (blurHandlerSettle (setAggressiveFocusMode (initFocusFlags false false true true false)
        false)).headerAlwaysOnTop = true ∧
    (blurHandlerSettle (setAggressiveFocusMode (initFocusFlags false false true true false)
        false)).headerFocused = true := by
  decide

/-- Once throttled, further calls in the frame schedule nothing. -/
theorem runThrottledCalls_true_eq (n : Nat) : runThrottledCalls true n = (true, 0) := by
  induction n with
  | zero => rfl
  | succ n ih => simp [runThrottledCalls, ih]

/-- C8: any number of render passes in one animation frame yields at
most one resize request, and any request sent carries the measured ideal
content height clamped to at most 700. -/
theorem c8_one_request_per_frame (n : Nat) (m : AskViewMeasure) :
    (frameResizeRequests n m).length ≤ 1 ∧
    ∀ r ∈ frameResizeRequests n m,
      r.targetHeight = min 700 (idealHeight m) ∧ r.targetHeight ≤ 700 := by
  cases n with
  | zero =>
    simp [frameResizeRequests, runThrottledCalls]
  | succ n =>
    have hrun : runThrottledCalls false (n + 1) = (true, 1) := by
      simp [runThrottledCalls, runThrottledCalls_true_eq]
    unfold frameResizeRequests
    rw [hrun]
    cases hr : adjustWindowHeightRun m with
    | none => simp [List.reduceOption]
    | some r =>
      have hrv : r = ⟨WName.ask, min 700 (idealHeight m)⟩ := by
        unfold adjustWindowHeightRun at hr
        split at hr
        · cases hr
        · split at hr
          · cases hr
          · injection hr with h2
            exact h2.symm
      simp only [List.replicate, List.reduceOption, Option.toList]
      constructor
      · simp
      · intro r2 hr2
        simp at hr2
        subst hr2
        rw [hrv]
        exact ⟨rfl, min_le_left _ _⟩

/-- C8 witness: three render passes in one frame, content taller than
the cap, produce the single clamped request. -/
theorem c8_one_request_per_frame_witness :
    (frameResizeRequests 3 ⟨true, true, true, false, 50, 800, false, true, 0, true, false, 60⟩).length ≤ 1 ∧
    ∀ r ∈ frameResizeRequests 3 ⟨true, true, true, false, 50, 800, false, true, 0, true, false, 60⟩,
      r.targetHeight =
        min 700 (idealHeight ⟨true, true, true, false, 50, 800, false, true, 0, true, false, 60⟩) ∧
      r.targetHeight ≤ 700 :=
  c8_one_request_per_frame 3 ⟨true, true, true, false, 50, 800, false, true, 0, true, false, 60⟩

/-- C5: whenever ask and listen are both requested and live, the layout
places listen exactly 8 px to the left of ask (along the shared
horizontal axis) and the two rectangles never overlap — under whichever
placement strategy the header position selects. -/
theorem c5_no_overlap_fixed_gap (pool : Pool) (vis : Visibility) (hb wa : Bounds)
    {aw lw : Win}
    (ha : pool .ask = some aw) (ha2 : aw.destroyed = false) (hva : vis.ask = true)
    (hl : pool .listen = some lw) (hl2 : lw.destroyed = false) (hvl : vis.listen = true)
    (l : LayoutResult)
    (h : calculateFeatureWindowLayout pool vis (some hb) wa = Except.ok l) :
    ∃ ab lb, l.ask = some ab ∧ l.listen = some lb ∧
      ab.x = lb.x + lb.width + 8 ∧ ¬rectsOverlap ab lb := by
  obtain ⟨ab, lb, heq, hw6, hw4, hax, hlx⟩ :=
    calcWith_both_reduce hb wa ha ha2 hva hl hl2 hvl
  have h2 : calculateFeatureWindowLayoutWith pool vis hb wa = Except.ok l := h
  rw [heq] at h2
  injection h2 with h3
  subst h3
  refine ⟨ab, lb, rfl, rfl, by omega, ?_⟩
  intro hov
  rcases hov with ⟨h1, -, -, -⟩
  omega

/-- C5 witness at a concrete header, work area and pool. -/
theorem c5_no_overlap_fixed_gap_witness :
    ∃ ab lb, (⟨some ⟨750, 548, 600, 400⟩, some ⟨342, 548, 400, 300⟩⟩ : LayoutResult).ask =
        some ab ∧
      (⟨some ⟨750, 548, 600, 400⟩, some ⟨342, 548, 400, 300⟩⟩ : LayoutResult).listen =
        some lb ∧
      ab.x = lb.x + lb.width + 8 ∧ ¬rectsOverlap ab lb :=
  c5_no_overlap_fixed_gap (poolAskListen ⟨0, 0, 600, 400⟩ ⟨0, 0, 400, 300⟩)
    ⟨true, true⟩ ⟨1000, 500, 100, 40⟩ ⟨0, 0, 2000, 1200⟩
    rfl rfl rfl rfl rfl rfl
    ⟨some ⟨750, 548, 600, 400⟩, some ⟨342, 548, 400, 300⟩⟩
    (by
      unfold calculateFeatureWindowLayout calculateFeatureWindowLayoutWith
      norm_num [visAndLive, poolAskListen, mkWin, getWindowDimensions,
        ORIGINAL_WINDOW_DIMENSIONS, jsOrI, constrainHeight, truthyI, valI,
        determineLayoutStrategy, jsRound]
      rw [if_neg (by decide)]
      rfl)

/-- C6 counterexample, refuting both conjuncts of the claim. Both
windows visible (even header width 100): the combined ask+listen span is
NOT centered on the header's center — the code centers ask alone and
hangs listen off to its left, so the span center sits 204 px left of the
header center (846 vs 1050 here). One window visible (odd header width
353, the app's default): the window's center does NOT equal the header's
center — `Math.round` shifts it half a pixel (1177 vs 1176.5 here). -/
theorem c6_centering_counterexample :
    (calculateFeatureWindowLayout (poolAskListen ⟨0, 0, 600, 400⟩ ⟨0, 0, 400, 300⟩)
        ⟨true, true⟩ (some ⟨1000, 500, 100, 40⟩) ⟨0, 0, 2000, 1200⟩ =
      Except.ok ⟨some ⟨750, 548, 600, 400⟩, some ⟨342, 548, 400, 300⟩⟩ ∧
     spanCenterX ⟨342, 548, 400, 300⟩ ⟨750, 548, 600, 400⟩ ≠
      centerX ⟨1000, 500, 100, 40⟩) ∧
    (calculateFeatureWindowLayout (poolAskListen ⟨0, 0, 600, 400⟩ ⟨0, 0, 400, 300⟩)
        ⟨true, false⟩ (some ⟨1000, 500, 353, 47⟩) ⟨0, 0, 2000, 1200⟩ =
      Except.ok ⟨some ⟨877, 555, 600, 400⟩, none⟩ ∧
     centerX ⟨877, 555, 600, 400⟩ ≠ centerX ⟨1000, 500, 353, 47⟩) := by
  refine ⟨⟨?_, ?_⟩, ?_, ?_⟩
  · unfold calculateFeatureWindowLayout calculateFeatureWindowLayoutWith
    norm_num [visAndLive, poolAskListen, mkWin, getWindowDimensions,
      ORIGINAL_WINDOW_DIMENSIONS, jsOrI, constrainHeight, truthyI, valI,
      determineLayoutStrategy, jsRound]
    rw [if_neg (by decide)]
    rfl
  · norm_num [spanCenterX, centerX]
  · unfold calculateFeatureWindowLayout calculateFeatureWindowLayoutWith
    norm_num [visAndLive, poolAskListen, mkWin, getWindowDimensions,
      ORIGINAL_WINDOW_DIMENSIONS, jsOrI, constrainHeight, truthyI, valI,
      determineLayoutStrategy, singleLayout, jsRound]
    rw [if_neg (by decide)]
    rfl
  · norm_num [centerX]

/-- Auxiliary: a rounded-center window is within half a pixel of the
target center. -/
theorem center_bound (c k r : ℚ) (hr : r = (jsRound (c - k) : ℚ) + k) : |r - c| ≤ 1/2 := by
  subst hr
  have h := abs_jsRound_sub_le (c - k)
  have e : ((jsRound (c - k) : ℚ) + k) - c = (jsRound (c - k) : ℚ) - (c - k) := by ring
  rw [e]
  exact h

/-- C6 (amended): a lone visible feature window is centered on the
header's horizontal center up to the half-pixel of `Math.round`; with
both visible it is the ASK window that is so centered, and listen sits
exactly 8 px to its left (the combined span is not centered). -/
theorem c6_centering_amended (pool : Pool) (vis : Visibility) (hb wa : Bounds)
    (l : LayoutResult)
    (h : calculateFeatureWindowLayout pool vis (some hb) wa = Except.ok l) :
    (∀ ab lb, l.ask = some ab → l.listen = some lb →
      |centerX ab - centerX hb| ≤ 1/2 ∧ ab.x = lb.x + lb.width + 8) ∧
    (∀ ab, l.ask = some ab → l.listen = none → |centerX ab - centerX hb| ≤ 1/2) ∧
    (∀ lb, l.listen = some lb → l.ask = none → |centerX lb - centerX hb| ≤ 1/2) := by
  have hw : calculateFeatureWindowLayoutWith pool vis hb wa = Except.ok l := h
  by_cases hA : visAndLive pool vis.ask .ask = true
  · obtain ⟨hva, aw, haw, hawd⟩ := live_of_visAndLive hA
    by_cases hL : visAndLive pool vis.listen .listen = true
    · obtain ⟨hvl, lw, hlw, hlwd⟩ := live_of_visAndLive hL
      obtain ⟨ab, lb, heq, hw6, hw4, hax, hlx⟩ :=
        calcWith_both_reduce hb wa haw hawd hva hlw hlwd hvl
      rw [heq] at hw
      injection hw with hw2
      subst hw2
      refine ⟨?_, ?_, ?_⟩
      · intro ab2 lb2 he1 he2
        simp only [Option.some.injEq] at he1 he2
        subst he1; subst he2
        constructor
        · refine center_bound (centerX hb) 300 _ ?_
          unfold centerX
          rw [hax, hw6]
          norm_num
        · omega
      · intro ab2 he1 he2
        simp at he2
      · intro lb2 he1 he2
        simp at he2
    · have hLf : visAndLive pool vis.listen .listen = false := by simpa using hL
      obtain ⟨ab, heq, hw6, hax⟩ :=
        calcWith_ask_only_reduce hb wa haw hawd hva hLf
      rw [heq] at hw
      injection hw with hw2
      subst hw2
      refine ⟨?_, ?_, ?_⟩
      · intro ab2 lb2 he1 he2
        simp at he2
      · intro ab2 he1 he2
        simp only [Option.some.injEq] at he1
        subst he1
        refine center_bound (centerX hb) 300 _ ?_
        unfold centerX
        rw [hax, hw6]
        norm_num
      · intro lb2 he1 he2
        simp at he1
  · have hAf : visAndLive pool vis.ask .ask = false := by simpa using hA
    by_cases hL : visAndLive pool vis.listen .listen = true
    · obtain ⟨hvl, lw, hlw, hlwd⟩ := live_of_visAndLive hL
      obtain ⟨lb, heq, hw4, hlx⟩ :=
        calcWith_listen_only_reduce hb wa hlw hlwd hvl hAf
      rw [heq] at hw
      injection hw with hw2
      subst hw2
      refine ⟨?_, ?_, ?_⟩
      · intro ab2 lb2 he1 he2
        simp at he1
      · intro ab2 he1 he2
        simp at he1
      · intro lb2 he1 he2
        simp only [Option.some.injEq] at he1
        subst he1
        refine center_bound (centerX hb) 200 _ ?_
        unfold centerX
        rw [hlx, hw4]
        norm_num
    · have hLf : visAndLive pool vis.listen .listen = false := by simpa using hL
      rw [calcWith_none_reduce hb wa hAf hLf] at hw
      injection hw with hw2
      subst hw2
      refine ⟨?_, ?_, ?_⟩
      · intro ab2 lb2 he1 he2
        simp [emptyLayout] at he1
      · intro ab2 he1 he2
        simp [emptyLayout] at he1
      · intro lb2 he1 he2
        simp [emptyLayout] at he1

/-- C6 (amended) witness at a concrete input. -/
theorem c6_centering_amended_witness :
    (∀ ab lb, (⟨some ⟨750, 548, 600, 400⟩, some ⟨342, 548, 400, 300⟩⟩ : LayoutResult).ask =
        some ab →
      (⟨some ⟨750, 548, 600, 400⟩, some ⟨342, 548, 400, 300⟩⟩ : LayoutResult).listen =
        some lb →
      |centerX ab - centerX ⟨1000, 500, 100, 40⟩| ≤ 1/2 ∧ ab.x = lb.x + lb.width + 8) ∧
    (∀ ab, (⟨some ⟨750, 548, 600, 400⟩, some ⟨342, 548, 400, 300⟩⟩ : LayoutResult).ask =
        some ab →
      (⟨some ⟨750, 548, 600, 400⟩, some ⟨342, 548, 400, 300⟩⟩ : LayoutResult).listen = none →
      |centerX ab - centerX ⟨1000, 500, 100, 40⟩| ≤ 1/2) ∧
    (∀ lb, (⟨some ⟨750, 548, 600, 400⟩, some ⟨342, 548, 400, 300⟩⟩ : LayoutResult).listen =
        some lb →
      (⟨some ⟨750, 548, 600, 400⟩, some ⟨342, 548, 400, 300⟩⟩ : LayoutResult).ask = none →
      |centerX lb - centerX ⟨1000, 500, 100, 40⟩| ≤ 1/2) :=
  c6_centering_amended (poolAskListen ⟨0, 0, 600, 400⟩ ⟨0, 0, 400, 300⟩)
    ⟨true, true⟩ ⟨1000, 500, 100, 40⟩ ⟨0, 0, 2000, 1200⟩
    ⟨some ⟨750, 548, 600, 400⟩, some ⟨342, 548, 400, 300⟩⟩
    (by
      unfold calculateFeatureWindowLayout calculateFeatureWindowLayoutWith
      norm_num [visAndLive, poolAskListen, mkWin, getWindowDimensions,
        ORIGINAL_WINDOW_DIMENSIONS, jsOrI, constrainHeight, truthyI, valI,
        determineLayoutStrategy, jsRound]
      rw [if_neg (by decide)]
      rfl)

/-- C9: a visibility request for any window name other than `settings`
whose requested visibility matches the window's current visibility is a
complete no-op (state unchanged, no motion-engine command), as is a
request naming a missing or destroyed window (any name). -/
theorem c9_visibility_request_noop (st : WMState) (workArea : Bounds) (name : WName)
    (sb : Bool)
    (h : st.pool name = none ∨
      ∃ w, st.pool name = some w ∧
        (w.destroyed = true ∨ (name ≠ WName.settings ∧ w.visible = sb))) :
    handleWindowVisibilityRequest st workArea name sb = Except.ok (st, []) := by
  unfold handleWindowVisibilityRequest
  rcases h with h | ⟨w, hw, hcase⟩
  · rw [h]
    rfl
  · simp only [hw]
    rcases hcase with hd | ⟨hn, hv⟩
    · rw [if_pos hd]
      rfl
    · by_cases hdd : w.destroyed = true
      · rw [if_pos hdd]
        rfl
      · rw [if_neg hdd, if_pos ⟨hn, hv⟩]
        rfl

/-- C9 witness: a show request for an already-visible ask window leaves
the state untouched and issues no command. -/
theorem c9_visibility_request_noop_witness :
    handleWindowVisibilityRequest
      ⟨poolAskListen ⟨0, 0, 600, 400⟩ ⟨0, 0, 400, 300⟩, false, fun _ => false⟩
      ⟨0, 0, 2000, 1200⟩ WName.ask true =
    Except.ok (⟨poolAskListen ⟨0, 0, 600, 400⟩ ⟨0, 0, 400, 300⟩, false, fun _ => false⟩, []) :=
  c9_visibility_request_noop
    ⟨poolAskListen ⟨0, 0, 600, 400⟩ ⟨0, 0, 400, 300⟩, false, fun _ => false⟩
    ⟨0, 0, 2000, 1200⟩ WName.ask true
    (Or.inr ⟨mkWin ⟨0, 0, 600, 400⟩, rfl, Or.inr ⟨by decide, rfl⟩⟩)

/-- Updating the `visible` field to its current value is the identity. -/
theorem win_set_visible_self {w : Win} {b : Bool} (h : w.visible = b) :
    ({ w with visible := b } : Win) = w := by
  cases w
  cases h
  rfl

/-- The hide pass of `changeAllWindowsVisibility` (header visible):
records exactly the live visible windows and hides every live window. -/
theorem changeAllRest_hide (st : WMState) (hwin : Win) (hd : hwin.destroyed = false)
    (hv : hwin.visible = true) (hh : st.pool .header = some hwin) :
    ∃ st₁, changeAllWindowsVisibilityRest st hwin = Except.ok st₁ ∧
      st₁.settingsHideTimerPending = st.settingsHideTimerPending ∧
      (∀ n, st₁.lastVisibleWindows n =
        (match st.pool n with
         | some w => !w.destroyed && w.visible
         | none => false)) ∧
      (∀ n, st.pool n = none → st₁.pool n = none) ∧
      (∀ n w, st.pool n = some w → w.destroyed = true → st₁.pool n = some w) ∧
      (∀ n w, st.pool n = some w → w.destroyed = false →
        st₁.pool n = some { w with visible := false }) := by
  unfold changeAllWindowsVisibilityRest
  rw [show jsIsVisible hwin = Except.ok true from by simp only [jsIsVisible, hd, if_neg Bool.false_ne_true, hv]; rfl]
  refine ⟨_, rfl, rfl, fun n => rfl, ?_, ?_, ?_⟩
  · intro n hn
    simp only [updateWin]
    by_cases hne : n = WName.header
    · rw [hne] at hn
      rw [hn] at hh
      cases hh
    · rw [if_neg hne, if_neg ?_]
      · exact hn
      · intro hcond
        rcases hcond with ⟨hc, -⟩
        rw [hn] at hc
        simp at hc
  · intro n w hw hwd
    simp only [updateWin]
    by_cases hne : n = WName.header
    · subst hne
      rw [hw] at hh
      injection hh with hh2
      rw [← hh2] at hd
      rw [hwd] at hd
      cases hd
    · rw [if_neg hne, if_neg ?_]
      · exact hw
      · intro hcond
        rcases hcond with ⟨hc, -⟩
        rw [hw] at hc
        simp [hwd] at hc
  · intro n w hw hwd
    simp only [updateWin]
    by_cases hne : n = WName.header
    · subst hne
      rw [if_pos rfl, if_neg ?_]
      · rw [hw]
        rfl
      · intro hcond
        exact hcond.2 rfl
    · rw [if_neg hne]
      by_cases hvis : w.visible = true
      · rw [if_pos ⟨by rw [hw]; simp [hwd, hvis], hne⟩]
        simp only [hw]
        rw [if_pos (by simp [hwd])]
      · have hvf : w.visible = false := by
          revert hvis; cases w.visible <;> simp
        rw [if_neg ?_]
        · rw [hw, win_set_visible_self hvf]
        · intro hcond
          rcases hcond with ⟨hc, -⟩
          rw [hw] at hc
          simp [hwd, hvf] at hc

/-- The show pass of `changeAllWindowsVisibility` (header hidden):
re-shows exactly the recorded set, leaving everything else alone. -/
theorem changeAllRest_show (st : WMState) (hwin : Win) (hd : hwin.destroyed = false)
    (hv : hwin.visible = false) :
    ∃ st₂, changeAllWindowsVisibilityRest st hwin = Except.ok st₂ ∧
      st₂.settingsHideTimerPending = st.settingsHideTimerPending ∧
      st₂.lastVisibleWindows = st.lastVisibleWindows ∧
      (∀ n, st.pool n = none → st₂.pool n = none) ∧
      (∀ n w, st.pool n = some w → st.lastVisibleWindows n = false → st₂.pool n = some w) ∧
      (∀ n w, st.pool n = some w → w.destroyed = true → st₂.pool n = some w) ∧
      (∀ n w, st.pool n = some w → w.destroyed = false → st.lastVisibleWindows n = true →
        st₂.pool n = some { w with visible := true }) := by
  unfold changeAllWindowsVisibilityRest
  rw [show jsIsVisible hwin = Except.ok false from by simp only [jsIsVisible, hd, if_neg Bool.false_ne_true, hv]; rfl]
  refine ⟨_, rfl, rfl, rfl, ?_, ?_, ?_, ?_⟩
  · intro n hn
    dsimp only
    by_cases hl : st.lastVisibleWindows n = true
    · rw [if_pos hl]
      simp only [hn]
    · rw [if_neg hl]
      exact hn
  · intro n w hw hl
    dsimp only
    rw [if_neg (by rw [hl]; simp)]
    exact hw
  · intro n w hw hwd
    dsimp only
    by_cases hl : st.lastVisibleWindows n = true
    · rw [if_pos hl]
      simp only [hw]
      rw [if_neg (by simp [hwd])]
    · rw [if_neg hl]
      exact hw
  · intro n w hw hwd hl
    dsimp only
    rw [if_pos hl]
    simp only [hw]
    rw [if_pos (by simp [hwd])]

/-- C10: `changeAllWindowsVisibility` is a visibility round-trip: a
boolean target equal to the header's current visibility changes nothing;
with the header visible, one call records exactly the live visible
windows and hides every live window, and a second call restores the pool
to exactly its original state (showing exactly the recorded set and
nothing else). -/
theorem c10_all_windows_roundtrip (st : WMState) (hwin : Win)
    (hh : st.pool .header = some hwin) (hd : hwin.destroyed = false) :
    (changeAllWindowsVisibility st (some hwin.visible) = Except.ok st) ∧
    (hwin.visible = true →
      ∃ st₁ st₂, changeAllWindowsVisibility st none = Except.ok st₁ ∧
        (∀ n, st₁.lastVisibleWindows n =
          (match st.pool n with
           | some w => !w.destroyed && w.visible
           | none => false)) ∧
        (∀ n w, st.pool n = some w → w.destroyed = false →
          st₁.pool n = some { w with visible := false }) ∧
        changeAllWindowsVisibility st₁ none = Except.ok st₂ ∧
        st₂.pool = st.pool ∧
        st₂.lastVisibleWindows = st₁.lastVisibleWindows) := by
  have hbool : changeAllWindowsVisibility st (some hwin.visible) = Except.ok st := by
    unfold changeAllWindowsVisibility
    simp only [hh]
    rw [show jsIsVisible hwin = Except.ok hwin.visible from by
      simp only [jsIsVisible, hd, if_neg Bool.false_ne_true]; rfl]
    dsimp only
    rw [if_pos rfl]
    rfl
  refine ⟨hbool, ?_⟩
  intro hv
  have hnone1 : changeAllWindowsVisibility st none = changeAllWindowsVisibilityRest st hwin := by
    unfold changeAllWindowsVisibility
    simp only [hh]
  obtain ⟨st₁, he1, hset1, hlast1, hpn, hpd, hpl⟩ := changeAllRest_hide st hwin hd hv hh
  have hh1 : st₁.pool .header = some { hwin with visible := false } := hpl .header hwin hh hd
  have hnone2 : changeAllWindowsVisibility st₁ none =
      changeAllWindowsVisibilityRest st₁ { hwin with visible := false } := by
    unfold changeAllWindowsVisibility
    simp only [hh1]
  obtain ⟨st₂, he2, hset2, hlast2, hqn, hql, hqd, hqv⟩ :=
    changeAllRest_show st₁ { hwin with visible := false } hd rfl
  refine ⟨st₁, st₂, by rw [hnone1]; exact he1, hlast1, hpl,
    by rw [hnone2]; exact he2, ?_, hlast2⟩
  funext n
  cases hp : st.pool n with
  | none =>
    rw [hqn n (hpn n hp)]
  | some w =>
    by_cases hwd : w.destroyed = true
    · rw [hqd n w (hpd n w hp hwd) hwd]
    · have hwdf : w.destroyed = false := by revert hwd; cases w.destroyed <;> simp
      have h1 := hpl n w hp hwdf
      have hrec : st₁.lastVisibleWindows n = w.visible := by
        rw [hlast1 n, hp]
        simp [hwdf]
      by_cases hvis : w.visible = true
      · have h2 := hqv n { w with visible := false } h1 hwdf (by rw [hrec, hvis])
        rw [h2]
        congr 1
        exact win_set_visible_self hvis
      · have hvf : w.visible = false := by revert hvis; cases w.visible <;> simp
        have h2 := hql n { w with visible := false } h1 (by rw [hrec, hvf])
        rw [h2]
        congr 1
        exact win_set_visible_self hvf

/-- A concrete pool for the C10 witness: visible header and ask, hidden
listen, destroyed settings handle. -/
def poolC10 : Pool :=
  fun n =>
    match n with
    | .header => some (mkWin ⟨0, 0, 353, 47⟩)
    | .ask => some (mkWin ⟨0, 100, 600, 400⟩)
    | .listen => some ⟨⟨0, 200, 400, 300⟩, false, false, 1, false, false, false⟩
    | .settings => some (mkDestroyedWin ⟨0, 0, 240, 300⟩)
    | .shortcutSettings => none

/-- C10 witness at the concrete pool. -/
theorem c10_all_windows_roundtrip_witness :
    (changeAllWindowsVisibility ⟨poolC10, false, fun _ => false⟩
        (some (mkWin ⟨0, 0, 353, 47⟩).visible) =
      Except.ok ⟨poolC10, false, fun _ => false⟩) ∧
    ((mkWin ⟨0, 0, 353, 47⟩).visible = true →
      ∃ st₁ st₂,
        changeAllWindowsVisibility ⟨poolC10, false, fun _ => false⟩ none = Except.ok st₁ ∧
        (∀ n, st₁.lastVisibleWindows n =
          (match (⟨poolC10, false, fun _ => false⟩ : WMState).pool n with
           | some w => !w.destroyed && w.visible
           | none => false)) ∧
        (∀ n w, (⟨poolC10, false, fun _ => false⟩ : WMState).pool n = some w →
          w.destroyed = false → st₁.pool n = some { w with visible := false }) ∧
        changeAllWindowsVisibility st₁ none = Except.ok st₂ ∧
        st₂.pool = (⟨poolC10, false, fun _ => false⟩ : WMState).pool ∧
        st₂.lastVisibleWindows = st₁.lastVisibleWindows) :=
  c10_all_windows_roundtrip ⟨poolC10, false, fun _ => false⟩ (mkWin ⟨0, 0, 353, 47⟩) rfl rfl
